import Mathlib

/-!
Verification of the DQN training core in `dqn_training.py` (critical point
capture game). Python floats are embedded as rationals (`ℚ`), Python lists as
`List`, and the observation dictionaries as a structure whose optional fields
model `dict.get` with its default. Randomized or numeric-library effects
(batch index choice, gradient updates, `random.random()` draws, square roots)
are passed in explicitly as oracle parameters, so every definition below is an
executable function of its inputs.
-/

/-- A critical point as delivered by the environment adapter: a 3-D position,
an optional owner color (an agent index, `none` = neutral) and an availability
flag. -/
structure CriticalPoint where
  position : ℚ × ℚ × ℚ
  color : Option ℕ
  available : Bool
deriving DecidableEq, Repr

/-- One observation dictionary from the game. `agent_position` and
`critical_points` are accessed with `[]` in the Python source (mandatory);
the remaining fields are read with `dict.get` and a default, embedded here as
`Option` with the default applied at the use site. `agent_owned_points` is the
string-keyed count map, embedded as an association list over agent ids. -/
structure GameState where
  agent_position : ℚ × ℚ × ℚ
  critical_points : List CriticalPoint
  navigation_grid : Option (List ℚ)
  time_remaining : Option ℚ
  nearest_unclaimed_distance : Option ℚ
  nearest_enemy_distance : Option ℚ
  agent_owned_points : List (ℕ × ℤ)
  map_size : Option ℚ
deriving DecidableEq, Repr

/-- Configuration of `GameStateProcessor`: `max_critical_points` and
`grid_size`; the per-point feature width is the constant 7. -/
structure GameStateProcessor where
  max_cps : ℕ
  grid_size : ℕ
deriving DecidableEq, Repr

/-- `GameStateProcessor.compute_state_dim`: agent position (3) + per-point
features (`max_cps * 7`) + navigation grid (`grid_size ^ 2`) + time remaining
(1) + two objective distances (2). -/
def compute_state_dim (p : GameStateProcessor) : ℕ :=
  let agent_pos := 3
  let cp_features := p.max_cps * 7
  let nav_grid := p.grid_size * p.grid_size
  let time_remaining := 1
  let distances := 2
  agent_pos + cp_features + nav_grid + time_remaining + distances

/-- Position normalization in `process_state`: horizontal axes shifted by
half the map size and divided by it, height divided by 5. -/
def normalize_pos (map_size : ℚ) (pos : ℚ × ℚ × ℚ) : List ℚ :=
  [(pos.1 + map_size / 2) / map_size, pos.2.1 / 5, (pos.2.2 + map_size / 2) / map_size]

/-- The color one-hot of a critical point: `[0,0,0,0]` with index
`min (color + 1) 3` set for an owned point (colors beyond the third bucket
collapse into the last slot), index 0 set for a neutral (`none`) point. -/
def color_one_hot (c : Option ℕ) : List ℚ :=
  let idx : ℕ := match c with
    | none => 0
    | some col => min (col + 1) 3
  (List.range 4).map (fun j => if j = idx then 1 else 0)

/-- The 7 features of one present critical point: normalized position,
color one-hot, availability bit. -/
def cp_feature_vec (map_size : ℚ) (cp : CriticalPoint) : List ℚ :=
  normalize_pos map_size cp.position ++ color_one_hot cp.color ++
    [if cp.available then 1 else 0]

/-- Features of slot `i` of the critical-point block in `process_state`:
the point's features when `i < len(critical_points)`, zero padding otherwise. -/
def cp_slot (map_size : ℚ) (cps : List CriticalPoint) (i : ℕ) : List ℚ :=
  match cps.get? i with
  | some cp => cp_feature_vec map_size cp
  | none => List.replicate 7 0

/-- `GameStateProcessor.process_state`: the concatenation in source order of
normalized agent position, `max_cps` critical-point slots, the navigation grid
(defaulting to `grid_size ^ 2` zeros when absent), time remaining (default 1)
and the two precomputed objective distances (default 1 each). No length
validation is performed anywhere. -/
def process_state (p : GameStateProcessor) (gs : GameState) : List ℚ :=
  let map_size := gs.map_size.getD 10
  let cp_features := ((List.range p.max_cps).map (cp_slot map_size gs.critical_points)).flatten
  let nav_grid := gs.navigation_grid.getD (List.replicate (p.grid_size * p.grid_size) 0)
  normalize_pos map_size gs.agent_position ++ cp_features ++ nav_grid ++
    [gs.time_remaining.getD 1] ++
    [gs.nearest_unclaimed_distance.getD 1, gs.nearest_enemy_distance.getD 1]

/-- The mock observation returned by `GameEnvironment.send_command_to_game`
(two critical points, one neutral and one owned by agent 1). -/
def mock_state : GameState where
  agent_position := (0, 1, 0)
  critical_points :=
    [{ position := (1, 1, 1), color := none, available := true },
     { position := (-1, 1, -1), color := some 1, available := false }]
  navigation_grid := some (List.replicate (15 * 15) 0)
  time_remaining := some (4/5)
  nearest_unclaimed_distance := some (1/2)
  nearest_enemy_distance := some (7/10)
  agent_owned_points := [(0, 0), (1, 1), (2, 0)]
  map_size := some 10

/-- The two target-selection modes of `get_proximity_reward`. -/
inductive TargetType
  | unclaimed
  | enemy
deriving DecidableEq, Repr

/-- Straight-line distance `sum((a-b)**2) ** 0.5` between two positions; the
square root of a rational is irrational in general, so the float `** 0.5` is
supplied as an explicit function parameter. -/
def distance (sqrtFn : ℚ → ℚ) (p q : ℚ × ℚ × ℚ) : ℚ :=
  sqrtFn ((p.1 - q.1) ^ 2 + (p.2.1 - q.2.1) ^ 2 + (p.2.2 - q.2.2) ^ 2)

/-- Python `min` over a nonempty list (the empty case is never reached at the
call sites because of the emptiness guards). -/
def list_min : List ℚ → ℚ
  | [] => 0
  | x :: xs => xs.foldl min x

/-- `GameEnvironment.get_proximity_reward`: collect unclaimed (color `none`)
or enemy-owned (color present and different from `agent_id`; any color differs
from a `none` agent id) target positions, then scale the decrease of the
minimum distance to them. Returns 0 when no critical point or no target
qualifies. -/
def get_proximity_reward (sqrtFn : ℚ → ℚ) (current_pos prev_pos : ℚ × ℚ × ℚ)
    (critical_points : List CriticalPoint) (target_type : TargetType)
    (reward_scale : ℚ) (agent_id : Option ℕ) : ℚ :=
  if critical_points = [] then 0
  else
    let target_points := critical_points.filterMap (fun cp =>
      match target_type, cp.color with
      | .unclaimed, none => some cp.position
      | .unclaimed, some _ => none
      | .enemy, none => none
      | .enemy, some c =>
          match agent_id with
          | none => some cp.position
          | some aid => if c ≠ aid then some cp.position else none)
    if target_points = [] then 0
    else
      let min_prev_dist := list_min (target_points.map (distance sqrtFn prev_pos))
      let min_curr_dist := list_min (target_points.map (distance sqrtFn current_pos))
      reward_scale * (min_prev_dist - min_curr_dist)

/-- `np.clip(x, lo, hi)`. -/
def np_clip (x lo hi : ℚ) : ℚ := min (max x lo) hi

/-- The mutable snapshot fields of `GameEnvironment` that
`calculate_reward` reads and writes: a single `previous_owned_points` counter
and a single `previous_position`, shared across all agent ids. -/
structure GameEnvironmentSnapshots where
  previous_owned_points : ℤ
  previous_position : Option (ℚ × ℚ × ℚ)
deriving DecidableEq, Repr

/-- The snapshot fields as set by `GameEnvironment.__init__` (and `reset`). -/
def game_environment_init : GameEnvironmentSnapshots :=
  { previous_owned_points := 0, previous_position := none }

/-- `state.get('agent_owned_points', {}).get(str(agent_id), 0)`. -/
def lookup_owned (m : List (ℕ × ℤ)) (agent_id : ℕ) : ℤ :=
  (m.lookup agent_id).getD 0

/-- `GameEnvironment.calculate_reward`: point-capture delta against the shared
`previous_owned_points`, two proximity-shaping terms (skipped on the first
call when `previous_position` is `None`), a constant `-0.01` time penalty, and
a final clip to `[-5, 5]`. Returns the reward together with the updated
snapshot fields. -/
def calculate_reward (sqrtFn : ℚ → ℚ) (env : GameEnvironmentSnapshots)
    (state : GameState) (agent_id : ℕ) : ℚ × GameEnvironmentSnapshots :=
  let current_owned := lookup_owned state.agent_owned_points agent_id
  let point_change := current_owned - env.previous_owned_points
  let reward1 : ℚ :=
    if point_change > 0 then 1 * (point_change : ℚ)
    else if point_change < 0 then -1 * |(point_change : ℚ)|
    else 0
  let current_position := state.agent_position
  let reward2 : ℚ :=
    match env.previous_position with
    | none => reward1
    | some prev_pos =>
        reward1 +
          (get_proximity_reward sqrtFn current_position prev_pos
            state.critical_points .unclaimed (1/10) none +
           get_proximity_reward sqrtFn current_position prev_pos
            state.critical_points .enemy (1/5) (some agent_id))
  let reward3 := reward2 - 1/100
  (np_clip reward3 (-5) 5,
   { previous_owned_points := current_owned,
     previous_position := some current_position })

/-- One stored experience `(state, action, reward, next_state, done)`;
immutable once pushed. -/
structure Transition where
  state : List ℚ
  action : ℕ
  reward : ℚ
  next_state : List ℚ
  done : Bool
deriving DecidableEq, Repr, Inhabited

/-- The two `ValueError` raise sites reachable from `ReplayBuffer.sample`:
`random.sample` on a population smaller than the request, and the 5-way
unpacking of `zip(*batch)` when the sampled batch is empty. -/
inductive SampleFailure
  | insufficient_samples
  | empty_unpack
deriving DecidableEq, Repr

/-- `ReplayBuffer.sample`: `random.sample` fails when the request exceeds the
occupancy; its random choice of distinct indices is passed in as `chosen`.
The resulting batch is transposed by `zip(*batch)` and unpacked into five
parallel sequences, which fails when the batch is empty. -/
def buffer_sample (buffer : List Transition) (batch_size : ℕ) (chosen : List ℕ) :
    Except SampleFailure
      (List (List ℚ) × List ℕ × List ℚ × List (List ℚ) × List Bool) :=
  if buffer.length < batch_size then .error .insufficient_samples
  else
    let batch := chosen.map (fun i => buffer.getD i default)
    match batch with
    | [] => .error .empty_unpack
    | _ :: _ =>
        .ok (batch.map (·.state), batch.map (·.action), batch.map (·.reward),
             batch.map (·.next_state), batch.map (·.done))

/-- One dense layer: a kernel matrix (one row per output unit) and a bias
vector. -/
structure LayerWeights where
  kernel : List (List ℚ)
  bias : List ℚ
deriving DecidableEq, Repr

/-- The full parameter set of a `DQNNetwork`: the dense layers in order
(hidden layers followed by the linear output layer). -/
abbrev NetWeights := List LayerWeights

def relu (x : ℚ) : ℚ := max x 0

def dot_product (xs ys : List ℚ) : ℚ := (List.zipWith (fun a b => a * b) xs ys).sum

def dense_forward (l : LayerWeights) (act : ℚ → ℚ) (x : List ℚ) : List ℚ :=
  List.zipWith (fun row b => act (dot_product row x + b)) l.kernel l.bias

/-- `DQNNetwork.call` in inference mode (`training=False`): each hidden dense
layer applies `relu`, the dropout layers are the identity when not training,
and the output layer is linear. -/
def dqn_network_call : NetWeights → List ℚ → List ℚ
  | [], x => x
  | [l], x => dense_forward l (fun v => v) x
  | l :: l2 :: ls, x => dqn_network_call (l2 :: ls) (dense_forward l relu x)

/-- The per-agent state held by `DQNAgent`. -/
structure DQNAgent where
  state_dim : ℕ
  action_dim : ℕ
  epsilon : ℚ
  epsilon_end : ℚ
  epsilon_decay : ℚ
  gamma : ℚ
  batch_size : ℕ
  target_update_freq : ℕ
  q_network : NetWeights
  target_network : NetWeights
  memory : List Transition
  step_count : ℕ
  loss_history : List ℚ
deriving DecidableEq, Repr

/-- `DQNAgent.update_target_network` on built networks (the state during
training, after both models' first forward passes): `set_weights
(get_weights())` is then a verbatim copy of the online parameters into the
target network. The constructor-time call on still-unbuilt models is treated
separately with `keras_set_weights`. -/
def update_target_network (a : DQNAgent) : DQNAgent :=
  { a with target_network := a.q_network }

/-- The weight lifecycle of one Keras model (a subclassed `DQNNetwork`): its
layers are declared in `__init__` but only built — materializing the
parameters — on the first forward call. `pending_init` is the
`glorot_uniform` draw this particular model will materialize when built; it
stands for the model's own seeded initializer stream. -/
structure KerasModel where
  built : Bool
  weights : NetWeights
  pending_init : NetWeights
deriving DecidableEq, Repr

/-- A freshly constructed `DQNNetwork(state_dim, action_dim)`: not yet built,
holding no materialized weights. -/
def keras_unbuilt (pending : NetWeights) : KerasModel :=
  { built := false, weights := [], pending_init := pending }

/-- `model.get_weights()`: the materialized parameter list, which is the
empty list while the model is unbuilt. -/
def keras_get_weights (m : KerasModel) : NetWeights :=
  if m.built then m.weights else []

/-- `model.set_weights(w)`: assigns into a built model; on an unbuilt model
the only length-compatible argument is the empty list and the call is a
silent no-op. -/
def keras_set_weights (m : KerasModel) (w : NetWeights) : KerasModel :=
  if m.built then { m with weights := w } else m

/-- `model(x)`: builds the model on its first call, materializing the pending
initializer draw, then runs the forward pass; returns the output together
with the (now built) model. -/
def keras_model_call (m : KerasModel) (x : List ℚ) : List ℚ × KerasModel :=
  let m' := if m.built then m
            else { m with built := true, weights := m.pending_init }
  (dqn_network_call m'.weights x, m')

/-- The network-constructing prefix of `DQNAgent.__init__` at Keras-lifecycle
precision: create the two models (both unbuilt, each with its own independent
future `glorot_uniform` draw) and immediately run `update_target_network`,
i.e. `target.set_weights(q.get_weights())`, before any forward pass has been
made. Returns the resulting (online, target) pair. -/
def dqn_agent_init_networks (q_pending target_pending : NetWeights) :
    KerasModel × KerasModel :=
  let q := keras_unbuilt q_pending
  let target := keras_unbuilt target_pending
  (q, keras_set_weights target (keras_get_weights q))

/-- Helper recursion of `tf_argmax`: strict comparison keeps the first
occurrence of the maximum, matching `tf.argmax`. -/
def argmax_aux : ℚ → ℕ → ℕ → List ℚ → ℕ
  | _, best_idx, _, [] => best_idx
  | best, best_idx, i, y :: ys =>
      if y > best then argmax_aux y i (i + 1) ys
      else argmax_aux best best_idx (i + 1) ys

/-- `tf.argmax` over one row of Q-values: the lowest index attaining the
maximum. -/
def tf_argmax (l : List ℚ) : ℕ :=
  match l with
  | [] => 0
  | x :: xs => argmax_aux x 0 1 xs

/-- Model of `random.randint(0, n - 1)` as a deterministic function of one
uniform draw `r`. -/
def randint_val (n : ℕ) (r : ℚ) : ℕ := Int.toNat ⌊r * n⌋ % n

/-- `DQNAgent.select_action`. The process-wide `random` generator is embedded
as a stream `rng` with a cursor `pos`; the returned cursor records how many
draws were consumed. When `training` is false the conjunction short-circuits
and no draw is consumed; the greedy branch runs the online network with
`training=False` (dropout disabled) and takes `tf.argmax`. The agent record is
returned unchanged — the method never writes any field. -/
def select_action (a : DQNAgent) (state : List ℚ) (training : Bool)
    (rng : ℕ → ℚ) (pos : ℕ) : ℕ × DQNAgent × ℕ :=
  if training then
    if rng pos < a.epsilon then
      (randint_val a.action_dim (rng (pos + 1)), a, pos + 2)
    else
      (tf_argmax (dqn_network_call a.q_network state), a, pos + 1)
  else
    (tf_argmax (dqn_network_call a.q_network state), a, pos)

/-- The numeric effects of one gradient step that the embedding treats as an
oracle: the optimizer's update of the online parameters (a function of the
sampled batch and the gradient tape) and the scalar Huber loss value. -/
structure TrainOracle where
  upd_weights : NetWeights → NetWeights
  loss_value : ℚ

/-- `DQNAgent.train_step`: a no-op returning `None` while the buffer holds
fewer than `batch_size` transitions; otherwise the gradient update is applied
to the online network (via the oracle), ε is decayed multiplicatively with the
`epsilon_end` floor, the step counter is incremented, the target network is
synchronized exactly when the incremented counter is a multiple of
`target_update_freq`, and the loss value is appended to the history. -/
def train_step (o : TrainOracle) (a : DQNAgent) : DQNAgent × Option ℚ :=
  if a.memory.length < a.batch_size then (a, none)
  else
    let q' := o.upd_weights a.q_network
    let eps' := max a.epsilon_end (a.epsilon * a.epsilon_decay)
    let step' := a.step_count + 1
    let target' := if step' % a.target_update_freq = 0 then q' else a.target_network
    ({ a with q_network := q', epsilon := eps', step_count := step',
              target_network := target',
              loss_history := a.loss_history ++ [o.loss_value] },
     some o.loss_value)

/-- A sequence of successive `train_step` calls on one agent. -/
def train_steps (a : DQNAgent) (os : List TrainOracle) : DQNAgent :=
  os.foldl (fun st o => (train_step o st).1) a

/-- The data written by `DQNAgent.save`: the two weight files and the JSON
sidecar `{epsilon, step_count, loss_history}`. -/
structure Checkpoint where
  epsilon : ℚ
  step_count : ℕ
  loss_history : List ℚ
  q_network_weights : NetWeights
  target_network_weights : NetWeights
deriving DecidableEq, Repr

/-- `DQNAgent.save`. -/
def dqn_agent_save (a : DQNAgent) : Checkpoint :=
  { epsilon := a.epsilon, step_count := a.step_count,
    loss_history := a.loss_history,
    q_network_weights := a.q_network,
    target_network_weights := a.target_network }

/-- `DQNAgent.load`: restores both weight sets and the three sidecar fields
into the receiving agent. -/
def dqn_agent_load (a : DQNAgent) (c : Checkpoint) : DQNAgent :=
  { a with q_network := c.q_network_weights,
           target_network := c.target_network_weights,
           epsilon := c.epsilon, step_count := c.step_count,
           loss_history := c.loss_history }

/-- Observation used to probe `calculate_reward` across two agents: agent 0
owns two points, agent 1 owns none, and there are no critical points in view
(so both proximity-shaping terms vanish). -/
def c3_obs : GameState where
  agent_position := (0, 1, 0)
  critical_points := []
  navigation_grid := none
  time_remaining := none
  nearest_unclaimed_distance := none
  nearest_enemy_distance := none
  agent_owned_points := [(0, 2), (1, 0)]
  map_size := none

/-- Observation whose navigation grid has 2 entries instead of
`grid_size * grid_size`. -/
def c7_bad_grid_obs : GameState where
  agent_position := (0, 1, 0)
  critical_points := []
  navigation_grid := some [0, 0]
  time_remaining := none
  nearest_unclaimed_distance := none
  nearest_enemy_distance := none
  agent_owned_points := []
  map_size := none

def c2_t0 : Transition :=
  { state := [1], action := 2, reward := 3, next_state := [4], done := false }

def c2_t1 : Transition :=
  { state := [5], action := 0, reward := 1, next_state := [2], done := true }

/-- A gradient-step oracle that leaves the online weights unchanged and
reports loss 0 (the simplest concrete instantiation). -/
def id_oracle : TrainOracle := { upd_weights := fun w => w, loss_value := 0 }

/-- An agent mid-training whose ε (0.06) sits just above the floor (0.05)
with decay factor 1/2, one stored transition and batch size 1, so the next
`train_step` runs and clamps ε at the floor. -/
def c4_agent : DQNAgent where
  state_dim := 1
  action_dim := 5
  epsilon := 3/50
  epsilon_end := 1/20
  epsilon_decay := 1/2
  gamma := 99/100
  batch_size := 1
  target_update_freq := 1000
  q_network := []
  target_network := []
  memory := [default]
  step_count := 0
  loss_history := []

/-- A freshly configured agent with the default schedule (ε = 1, floor 0.05,
decay 0.995) and an empty buffer. -/
def c4w_agent : DQNAgent where
  state_dim := 1
  action_dim := 5
  epsilon := 1
  epsilon_end := 1/20
  epsilon_decay := 199/200
  gamma := 99/100
  batch_size := 64
  target_update_freq := 1000
  q_network := []
  target_network := []
  memory := []
  step_count := 0
  loss_history := []

/-- An agent with distinct online and target weights, one stored transition,
batch size 1 and target-update period 2, used to probe the sync cadence. -/
def c5_agent : DQNAgent where
  state_dim := 1
  action_dim := 2
  epsilon := 1
  epsilon_end := 1/20
  epsilon_decay := 199/200
  gamma := 99/100
  batch_size := 1
  target_update_freq := 2
  q_network := [{ kernel := [[1], [2]], bias := [0, 1] }]
  target_network := [{ kernel := [[3], [4]], bias := [5, 6] }]
  memory := [default]
  step_count := 0
  loss_history := []

/-- A concrete `glorot_uniform` draw for the online network: one 1-input,
1-output linear layer with weight 1. -/
def c9_q_init : NetWeights := [{ kernel := [[1]], bias := [0] }]

/-- A distinct concrete draw for the target network: the same shape with
weight 2. -/
def c9_target_init : NetWeights := [{ kernel := [[2]], bias := [0] }]

lemma color_one_hot_length (c : Option ℕ) : (color_one_hot c).length = 4 := by
  simp [color_one_hot]

/-- A present critical point contributes 8 entries (3 position + 4 one-hot +
1 availability), although the source declares `cp_feature_dim = 7`. -/
lemma cp_feature_vec_length (m : ℚ) (cp : CriticalPoint) :
    (cp_feature_vec m cp).length = 8 := by
  simp [cp_feature_vec, normalize_pos, color_one_hot_length]

lemma cp_slot_length_present (m : ℚ) (cps : List CriticalPoint) (i : ℕ)
    (h : i < cps.length) : (cp_slot m cps i).length = 8 := by
  unfold cp_slot
  rw [List.get?_eq_get h]
  exact cp_feature_vec_length m _

lemma cp_slot_length_absent (m : ℚ) (cps : List CriticalPoint) (i : ℕ)
    (h : cps.length ≤ i) : (cp_slot m cps i).length = 7 := by
  unfold cp_slot
  rw [List.get?_eq_none.mpr h]
  simp

lemma cp_block_length (m : ℚ) (cps : List CriticalPoint) (n : ℕ) :
    (((List.range n).map (cp_slot m cps)).flatten).length =
      8 * min n cps.length + 7 * (n - min n cps.length) := by
  induction n with
  | zero => simp
  | succ k ih =>
      rw [List.range_succ, List.map_append, List.flatten_append]
      rw [List.length_append, ih]
      by_cases h : k < cps.length
      · have hk : ((List.map (cp_slot m cps) [k]).flatten).length = 8 := by
          simp [cp_slot_length_present m cps k h]
        rw [hk]; omega
      · have hk : ((List.map (cp_slot m cps) [k]).flatten).length = 7 := by
          simp [cp_slot_length_absent m cps k (Nat.le_of_not_lt h)]
        rw [hk]; omega

/-- The length of an encoded state: 3 agent-position entries, 8 entries per
present critical point (up to `max_cps`), 7 zero entries per padded slot, the
navigation grid as supplied (or its default), time remaining, two distances. -/
lemma process_state_length (p : GameStateProcessor) (gs : GameState) :
    (process_state p gs).length =
      3 + (8 * min p.max_cps gs.critical_points.length +
            7 * (p.max_cps - min p.max_cps gs.critical_points.length)) +
        (gs.navigation_grid.getD (List.replicate (p.grid_size * p.grid_size) 0)).length
        + 1 + 2 := by
  unfold process_state
  simp only [List.length_append, cp_block_length, normalize_pos, List.length_cons,
    List.length_nil]


lemma np_clip_mem (x lo hi : ℚ) (h : lo ≤ hi) :
    lo ≤ np_clip x lo hi ∧ np_clip x lo hi ≤ hi :=
  ⟨le_min (le_max_right _ _) h, min_le_right _ _⟩

lemma train_step_epsilon_cases (o : TrainOracle) (a : DQNAgent) :
    (train_step o a).1.epsilon = a.epsilon ∨
    (train_step o a).1.epsilon = max a.epsilon_end (a.epsilon * a.epsilon_decay) := by
  unfold train_step
  split
  · left; rfl
  · right; rfl

lemma train_step_config (o : TrainOracle) (a : DQNAgent) :
    (train_step o a).1.epsilon_end = a.epsilon_end ∧
    (train_step o a).1.epsilon_decay = a.epsilon_decay := by
  unfold train_step
  split
  · exact ⟨rfl, rfl⟩
  · exact ⟨rfl, rfl⟩

lemma eps_update_le (floor eps decay : ℚ) (h0 : 0 ≤ floor)
    (hd1 : decay ≤ 1) (hf : floor ≤ eps) :
    max floor (eps * decay) ≤ eps := by
  apply max_le hf
  calc eps * decay ≤ eps * 1 :=
        mul_le_mul_of_nonneg_left hd1 (le_trans h0 hf)
    _ = eps := mul_one eps

lemma train_step_epsilon_bounds (o : TrainOracle) (a : DQNAgent)
    (h0 : 0 ≤ a.epsilon_end) (hd1 : a.epsilon_decay ≤ 1)
    (hf : a.epsilon_end ≤ a.epsilon) :
    (train_step o a).1.epsilon ≤ a.epsilon ∧
    a.epsilon_end ≤ (train_step o a).1.epsilon := by
  rcases train_step_epsilon_cases o a with h | h
  · rw [h]; exact ⟨le_refl _, hf⟩
  · rw [h]
    exact ⟨eps_update_le _ _ _ h0 hd1 hf, le_max_left _ _⟩

lemma train_steps_invariant (os : List TrainOracle) (a : DQNAgent)
    (h0 : 0 ≤ a.epsilon_end) (hd1 : a.epsilon_decay ≤ 1)
    (hf : a.epsilon_end ≤ a.epsilon) :
    (train_steps a os).epsilon_end = a.epsilon_end ∧
    (train_steps a os).epsilon_decay = a.epsilon_decay ∧
    a.epsilon_end ≤ (train_steps a os).epsilon ∧
    (train_steps a os).epsilon ≤ a.epsilon := by
  induction os generalizing a with
  | nil => exact ⟨rfl, rfl, hf, le_refl _⟩
  | cons o os ih =>
      have hstep := train_step_epsilon_bounds o a h0 hd1 hf
      have hcfg := train_step_config o a
      have hrec := ih (train_step o a).1
        (by rw [hcfg.1]; exact h0)
        (by rw [hcfg.2]; exact hd1)
        (by rw [hcfg.1]; exact hstep.2)
      have hfold : train_steps a (o :: os) = train_steps (train_step o a).1 os := rfl
      refine ⟨?_, ?_, ?_, ?_⟩
      · rw [hfold, hrec.1, hcfg.1]
      · rw [hfold, hrec.2.1, hcfg.2]
      · rw [hfold]
        calc a.epsilon_end = (train_step o a).1.epsilon_end := (hcfg.1).symm
          _ ≤ (train_steps (train_step o a).1 os).epsilon := hrec.2.2.1
      · rw [hfold]
        exact le_trans hrec.2.2.2 hstep.1

lemma train_steps_append_last (a : DQNAgent) (os : List TrainOracle)
    (o : TrainOracle) :
    train_steps a (os ++ [o]) = (train_step o (train_steps a os)).1 := by
  unfold train_steps
  rw [List.foldl_append]
  rfl

/-- C1: `compute_state_dim` (the claimed `compute_feature_dim`) does return
`3 + max_points*7 + grid_size*grid_size + 1 + 2 = 581` for `(50, 15)`, but
`process_state` does not return a vector of this length: on the repository's
own mock observation (2 critical points) it returns 583 entries, because each
present critical point contributes 8 features (3 position, 4 one-hot,
1 availability) while the declared per-point width — and the padding width —
is 7. -/
theorem c1_encode_length_contradicts_state_dim :
    compute_state_dim { max_cps := 50, grid_size := 15 } = 581 ∧
    (process_state { max_cps := 50, grid_size := 15 } mock_state).length = 583 := by
  constructor
  · rfl
  · rw [process_state_length]
    simp only [mock_state, Option.getD_some, List.length_replicate,
      List.length_cons, List.length_nil]
    omega

/-- C2 counterexample: for batch size 0 the stored count (0) is not below the
batch size, yet `sample` does not return an empty batch of five sequences —
the 5-way unpacking of `zip(*batch)` fails on the empty batch. -/
theorem c2_counterexample_zero_batch :
    buffer_sample ([] : List Transition) 0 [] = .error .empty_unpack ∧
    ¬ (([] : List Transition).length < 0) := by
  exact ⟨rfl, by decide⟩

/-- C2 (amended to positive batch sizes): for every batch size `k ≥ 1`,
`sample` fails with the insufficient-samples error whenever the stored count
is below `k` — this happens inside `random.sample`, before any index is
drawn, so it holds for every value of `chosen` — and when the stored count is
at least `k`, for every without-replacement draw `chosen` (distinct in-range
indices, one per requested sample) it returns five parallel sequences of
length `k` whose `j`-th entries are the fields of the transition stored at
index `chosen j`, in the sampled order. -/
theorem c2_sample_distinct_or_error (buffer : List Transition) (batch_size : ℕ)
    (chosen : List ℕ) (hpos : 1 ≤ batch_size) :
    (buffer.length < batch_size →
      buffer_sample buffer batch_size chosen = .error .insufficient_samples) ∧
    (batch_size ≤ buffer.length → chosen.length = batch_size → chosen.Nodup →
      (∀ i ∈ chosen, i < buffer.length) →
      buffer_sample buffer batch_size chosen =
        .ok (chosen.map (fun i => (buffer.getD i default).state),
             chosen.map (fun i => (buffer.getD i default).action),
             chosen.map (fun i => (buffer.getD i default).reward),
             chosen.map (fun i => (buffer.getD i default).next_state),
             chosen.map (fun i => (buffer.getD i default).done)) ∧
      (chosen.map (fun i => (buffer.getD i default).state)).length = batch_size) := by
  constructor
  · intro hlt
    unfold buffer_sample
    rw [if_pos hlt]
  · intro hge hlen hnd hbound
    unfold buffer_sample
    rw [if_neg (Nat.not_lt.mpr hge)]
    cases chosen with
    | nil => rw [List.length_nil] at hlen; omega
    | cons c cs =>
        refine ⟨?_, by rw [List.length_map]; exact hlen⟩
        simp [List.map_map, Function.comp]

/-- C2 witness: a one-transition buffer asked for 2 samples fails with the
insufficient-samples error, and a two-transition buffer sampled with batch
size 1 at index 1 returns that transition's five fields. -/
theorem c2_sample_distinct_or_error_witness :
    buffer_sample [c2_t0] 2 [] = .error .insufficient_samples ∧
    buffer_sample [c2_t0, c2_t1] 1 [1] =
      .ok ([c2_t1.state], [c2_t1.action], [c2_t1.reward],
           [c2_t1.next_state], [c2_t1.done]) :=
  ⟨(c2_sample_distinct_or_error [c2_t0] 2 [] (by decide)).1 (by decide),
   ((c2_sample_distinct_or_error [c2_t0, c2_t1] 1 [1] (by decide)).2 (by decide)
      (by decide) (by decide) (by decide)).1⟩

/-- C3: the reward snapshots are NOT kept per agent. `GameEnvironment` holds a
single shared `previous_owned_points`; after agent 0 (owning 2 points) is
rewarded, a reward call for agent 1 — whose own count is 0 in both
observations, so the claim prescribes a point-delta of 0 and total reward
-0.01 — instead compares agent 1's count 0 against agent 0's stored count 2
and yields -2 - 0.01 = -2.01. -/
theorem c3_shared_snapshot_cross_agent_reward :
    (calculate_reward (fun x => x) game_environment_init c3_obs 0).1 = 199/100 ∧
    (calculate_reward (fun x => x)
        (calculate_reward (fun x => x) game_environment_init c3_obs 0).2
        c3_obs 1).1 = -201/100 := by
  have h1 : calculate_reward (fun x => x) game_environment_init c3_obs 0 =
      (199/100, { previous_owned_points := 2, previous_position := some (0, 1, 0) }) := by
    norm_num [calculate_reward, game_environment_init, c3_obs, lookup_owned, np_clip,
      min_def, max_def]
  have hl : lookup_owned [(0, 2), (1, 0)] 1 = 0 := rfl
  have h2 : (calculate_reward (fun x => x)
      ({ previous_owned_points := 2, previous_position := some (0, 1, 0) } :
        GameEnvironmentSnapshots) c3_obs 1).1 = -201/100 := by
    norm_num [calculate_reward, c3_obs, hl, np_clip, get_proximity_reward,
      min_def, max_def, abs]
  exact ⟨by rw [h1], by rw [h1]; exact h2⟩

/-- C4 counterexample: one effective `train_step` from ε = 0.06 with decay 1/2
and floor 0.05 leaves ε neither unchanged nor multiplied by the decay factor —
it is clamped to the floor (0.06 · 1/2 = 0.03 < 0.05). -/
theorem c4_counterexample_clamp :
    (train_step id_oracle c4_agent).1.epsilon ≠ c4_agent.epsilon ∧
    (train_step id_oracle c4_agent).1.epsilon ≠
      c4_agent.epsilon * c4_agent.epsilon_decay ∧
    (train_step id_oracle c4_agent).1.epsilon = c4_agent.epsilon_end := by
  have h : (train_step id_oracle c4_agent).1.epsilon =
      max (1/20 : ℚ) (3/50 * (1/2)) := rfl
  rw [max_eq_left (by norm_num)] at h
  refine ⟨?_, ?_, ?_⟩
  · rw [h]; norm_num [c4_agent]
  · rw [h]; norm_num [c4_agent]
  · rw [h]; norm_num [c4_agent]

/-- C4 (amended): for a configuration with `0 ≤ epsilon_end ≤ ε` and decay
factor in `[0, 1]`, across any sequence of successive `train_step` calls ε
stays at or above the floor `epsilon_end`, each further call does not increase
ε, and each call either leaves ε unchanged (warm-up no-op), multiplies it by
the decay factor, or clamps it to the floor. -/
theorem c4_epsilon_monotone_floor (a : DQNAgent) (os : List TrainOracle)
    (o : TrainOracle) (h0 : 0 ≤ a.epsilon_end) (hd1 : a.epsilon_decay ≤ 1)
    (hf : a.epsilon_end ≤ a.epsilon) :
    a.epsilon_end ≤ (train_steps a os).epsilon ∧
    (train_steps a (os ++ [o])).epsilon ≤ (train_steps a os).epsilon ∧
    a.epsilon_end ≤ (train_steps a (os ++ [o])).epsilon ∧
    ((train_steps a (os ++ [o])).epsilon = (train_steps a os).epsilon ∨
     (train_steps a (os ++ [o])).epsilon =
       (train_steps a os).epsilon * a.epsilon_decay ∨
     (train_steps a (os ++ [o])).epsilon = a.epsilon_end) := by
  have hinv := train_steps_invariant os a h0 hd1 hf
  have hstep := train_step_epsilon_bounds o (train_steps a os)
    (by rw [hinv.1]; exact h0) (by rw [hinv.2.1]; exact hd1)
    (by rw [hinv.1]; exact hinv.2.2.1)
  have happ := train_steps_append_last a os o
  refine ⟨hinv.2.2.1, ?_, ?_, ?_⟩
  · rw [happ]; exact hstep.1
  · rw [happ]
    calc a.epsilon_end = (train_steps a os).epsilon_end := (hinv.1).symm
      _ ≤ (train_step o (train_steps a os)).1.epsilon := hstep.2
  · rw [happ]
    rcases train_step_epsilon_cases o (train_steps a os) with h | h
    · left; exact h
    · by_cases hcmp : (train_steps a os).epsilon_end ≤
        (train_steps a os).epsilon * (train_steps a os).epsilon_decay
      · right; left
        rw [h, max_eq_right hcmp, hinv.2.1]
      · right; right
        rw [h, max_eq_left (le_of_not_le hcmp), hinv.1]

/-- C4 witness: the default schedule (ε = 1, floor 0.05, decay 0.995) after an
empty history and one further call. -/
theorem c4_epsilon_monotone_floor_witness :
    c4w_agent.epsilon_end ≤ (train_steps c4w_agent []).epsilon ∧
    (train_steps c4w_agent ([] ++ [id_oracle])).epsilon ≤
      (train_steps c4w_agent []).epsilon ∧
    c4w_agent.epsilon_end ≤ (train_steps c4w_agent ([] ++ [id_oracle])).epsilon ∧
    ((train_steps c4w_agent ([] ++ [id_oracle])).epsilon =
        (train_steps c4w_agent []).epsilon ∨
     (train_steps c4w_agent ([] ++ [id_oracle])).epsilon =
        (train_steps c4w_agent []).epsilon * c4w_agent.epsilon_decay ∨
     (train_steps c4w_agent ([] ++ [id_oracle])).epsilon = c4w_agent.epsilon_end) :=
  c4_epsilon_monotone_floor c4w_agent [] id_oracle (by norm_num [c4w_agent])
    (by norm_num [c4w_agent]) (by norm_num [c4w_agent])

/-- C5: `update_target_network` makes the target parameters a verbatim copy of
the online parameters, hence the two networks produce identical Q-values on
every probe state; and inside an effective `train_step` the target network
receives the (freshly updated) online parameters exactly when the incremented
step counter is a multiple of `target_update_freq`, keeping its old parameters
otherwise. -/
theorem c5_target_sync_verbatim_and_cadence (a : DQNAgent) (o : TrainOracle)
    (s : List ℚ) (h : a.batch_size ≤ a.memory.length) :
    (update_target_network a).target_network =
      (update_target_network a).q_network ∧
    dqn_network_call (update_target_network a).target_network s =
      dqn_network_call (update_target_network a).q_network s ∧
    (train_step o a).1.target_network =
      (if (a.step_count + 1) % a.target_update_freq = 0
       then (train_step o a).1.q_network
       else a.target_network) := by
  refine ⟨rfl, rfl, ?_⟩
  unfold train_step
  rw [if_neg (Nat.not_lt.mpr h)]

/-- C5 witness: a concrete agent with distinct online and target weights, one
stored transition and update period 2 (so the first step does not sync). -/
theorem c5_target_sync_verbatim_and_cadence_witness :
    (update_target_network c5_agent).target_network =
      (update_target_network c5_agent).q_network ∧
    dqn_network_call (update_target_network c5_agent).target_network [3] =
      dqn_network_call (update_target_network c5_agent).q_network [3] ∧
    (train_step id_oracle c5_agent).1.target_network =
      (if (c5_agent.step_count + 1) % c5_agent.target_update_freq = 0
       then (train_step id_oracle c5_agent).1.q_network
       else c5_agent.target_network) :=
  c5_target_sync_verbatim_and_cadence c5_agent id_oracle [3] (by decide)

/-- C6: whatever the observation, the agent id, the snapshot values and the
square-root oracle (so regardless of any input magnitudes), the value returned
by `calculate_reward` lies within `[-5, 5]` because of the final
`np.clip(reward, -5.0, 5.0)`. -/
theorem c6_reward_always_clipped (sqrtFn : ℚ → ℚ)
    (env : GameEnvironmentSnapshots) (st : GameState) (agent_id : ℕ) :
    -5 ≤ (calculate_reward sqrtFn env st agent_id).1 ∧
    (calculate_reward sqrtFn env st agent_id).1 ≤ 5 := by
  unfold calculate_reward
  exact np_clip_mem _ _ _ (by norm_num)

/-- C7 counterexample: on an observation whose navigation grid has 2 entries
instead of `15 * 15`, `process_state` raises nothing and returns a vector of
length 358 although `compute_state_dim` is 581 — a wrong-length vector is
returned rather than any `ShapeError`. -/
theorem c7_counterexample_no_shape_error :
    (process_state { max_cps := 50, grid_size := 15 } c7_bad_grid_obs).length
      = 358 ∧
    compute_state_dim { max_cps := 50, grid_size := 15 } = 581 := by
  constructor
  · rw [process_state_length]; rfl
  · rfl

/-- C7 (amended): `process_state` performs no length validation at all: it
always returns a vector — of length 3 agent-position entries, plus 8 entries
per present critical point and 7 per padded slot, plus however many entries
the supplied navigation grid has (its default being `grid_size * grid_size`
zeros), plus 3 — even when this length disagrees with `compute_state_dim`;
no `ShapeError` exists in the code. -/
theorem c7_encode_unvalidated_length (p : GameStateProcessor) (gs : GameState) :
    (process_state p gs).length =
      3 + (8 * min p.max_cps gs.critical_points.length +
            7 * (p.max_cps - min p.max_cps gs.critical_points.length)) +
        (gs.navigation_grid.getD
          (List.replicate (p.grid_size * p.grid_size) 0)).length + 1 + 2 :=
  process_state_length p gs

/-- C8: save followed by load (into any agent) restores ε, the step counter
and the loss history to exactly the values at save time. -/
theorem c8_checkpoint_roundtrip (a b : DQNAgent) :
    (dqn_agent_load b (dqn_agent_save a)).epsilon = a.epsilon ∧
    (dqn_agent_load b (dqn_agent_save a)).step_count = a.step_count ∧
    (dqn_agent_load b (dqn_agent_save a)).loss_history = a.loss_history :=
  ⟨rfl, rfl, rfl⟩

/-- C9 counterexample: with concrete distinct initializer draws (online layer
weight 1, target layer weight 2), the first forward passes of the two
networks created and "synchronized" by the constructor disagree on the probe
state `[1]` — the networks do not agree from step zero. -/
theorem c9_counterexample_no_step_zero_agreement :
    (keras_model_call
        (dqn_agent_init_networks c9_q_init c9_target_init).1 [1]).1 ≠
      (keras_model_call
        (dqn_agent_init_networks c9_q_init c9_target_init).2 [1]).1 := by
  norm_num [keras_model_call, dqn_agent_init_networks, keras_unbuilt,
    keras_set_weights, keras_get_weights, dqn_network_call, dense_forward,
    dot_product, c9_q_init, c9_target_init]

/-- C9 (amended): the constructor's `update_target_network()` call is an
ineffective no-op, not an initial synchronization: both Keras models are
still unbuilt, `get_weights()` on the unbuilt online model returns the empty
list, and `set_weights` of it leaves the target model exactly as constructed.
Each network materializes its own independent initializer draw at its first
forward call, so the two networks' step-zero outputs are those of their two
independent initializations, with no relation forced between them. -/
theorem c9_ctor_sync_is_noop (q_pending target_pending : NetWeights)
    (s : List ℚ) :
    (dqn_agent_init_networks q_pending target_pending).1.built = false ∧
    (dqn_agent_init_networks q_pending target_pending).2.built = false ∧
    keras_get_weights (dqn_agent_init_networks q_pending target_pending).1
      = [] ∧
    (dqn_agent_init_networks q_pending target_pending).2 =
      keras_unbuilt target_pending ∧
    (keras_model_call (dqn_agent_init_networks q_pending target_pending).1
        s).1 = dqn_network_call q_pending s ∧
    (keras_model_call (dqn_agent_init_networks q_pending target_pending).2
        s).1 = dqn_network_call target_pending s :=
  ⟨rfl, rfl, rfl, rfl, rfl, rfl⟩

/-- C10: with `training=False`, `select_action` is a pure function of the
agent's parameters and the state: the returned action is the same for any two
random streams and cursors (the `and` short-circuits, so no draw is consumed
and the cursor is returned untouched), it equals the argmax of the
inference-mode (dropout-disabled) forward pass, and the agent record is
returned entirely unchanged. -/
theorem c10_select_action_eval_pure (a : DQNAgent) (state : List ℚ)
    (rng rng' : ℕ → ℚ) (pos pos' : ℕ) :
    (select_action a state false rng pos).1 =
      (select_action a state false rng' pos').1 ∧
    (select_action a state false rng pos).1 =
      tf_argmax (dqn_network_call a.q_network state) ∧
    (select_action a state false rng pos).2.1 = a ∧
    (select_action a state false rng pos).2.2 = pos :=
  ⟨rfl, rfl, rfl, rfl⟩
